import Mathlib

/-!
Verification of the x86_64 instruction primitives core
(`src/instructions/mod.rs`).

The source is a thin layer: each public function executes exactly one
x86_64 machine instruction, either emitted inline at the call site
(feature `inline_asm`, via `llvm_asm!`) or by calling a separately
assembled stub routine (`crate::asm::x86_64_asm_*`).

We embed the architectural state the instructions touch as a record,
give each instruction its semantics as a state transformer, and model
the two backends and the `cfg`-driven availability of each public
function.  Machine words are `Nat` reduced modulo `2 ^ 64` at each
write; hardware faults are the `Except` error channel.
-/

/-- The slice of x86_64 architectural state observable through the
operations of this core: the instruction pointer, the low 16 bits of
RBX (touched by the Bochs magic-breakpoint instruction
`xchgw %bx, %bx`), the FS and GS segment base registers, the
`CR4.FSGSBASE` enable bit, whether an interrupt is pending, and
whether the processor is currently halted. -/
structure MachineState where
  rip : Nat
  bx : Nat
  fsbase : Nat
  gsbase : Nat
  cr4_fsgsbase : Bool
  interruptPending : Bool
  halted : Bool
  deriving Repr, DecidableEq

/-- Hardware faults the spec names for this core: invalid-opcode
(`#UD`, raised by the FSGSBASE instructions when `CR4.FSGSBASE` is
clear) and general-protection (`#GP`). -/
inductive Fault where
  | invalidOpcode
  | generalProtection
  deriving Repr, DecidableEq

/-- Encoded length in bytes of `hlt` (F4). -/
def hltLen : Nat := 1

/-- Encoded length in bytes of `nop` (90). -/
def nopLen : Nat := 1

/-- Encoded length in bytes of `xchgw %bx, %bx` (66 87 DB). -/
def xchgBxBxLen : Nat := 3

/-- Encoded length in bytes of `lea (%rip), r64` (48 8D 05 00 00 00 00). -/
def leaRipLen : Nat := 7

/-- Encoded length in bytes of `wrfsbase r64` / `rdfsbase r64` /
`wrgsbase r64` / `rdgsbase r64` (F3 48 0F AE /r). -/
def fsgsbaseLen : Nat := 5

/-- Semantics of the `hlt` instruction (source: `llvm_asm!("hlt")` in
`hlt`, `src/instructions/mod.rs` lines 13-24): the instruction pointer
moves past the instruction; if an interrupt is already pending the
processor resumes at once (the pending interrupt is consumed),
otherwise it stays halted until one arrives. -/
def execHlt (s : MachineState) : MachineState :=
  let s1 : MachineState := { s with rip := (s.rip + hltLen) % 2 ^ 64 }
  if s1.interruptPending then
    { s1 with interruptPending := false, halted := false }
  else
    { s1 with halted := true }

/-- Semantics of the `nop` instruction (source: `llvm_asm!("nop")` in
`nop`, `src/instructions/mod.rs` lines 32-43): no architectural effect
beyond advancing the instruction pointer. -/
def execNop (s : MachineState) : MachineState :=
  { s with rip := (s.rip + nopLen) % 2 ^ 64 }

/-- An `xchg` of two register values: each receives the other's old
value. -/
def xchg (a b : Nat) : Nat × Nat := (b, a)

/-- Semantics of `xchgw %bx, %bx` (source: `llvm_asm!` in
`bochs_breakpoint`, `src/instructions/mod.rs` lines 49-53): exchanges
BX with itself — both halves of the swap land on the same register, so
its value is unchanged — and advances the instruction pointer. -/
def execXchgBxBx (s : MachineState) : MachineState :=
  let p := xchg s.bx s.bx
  { s with bx := p.2, rip := (s.rip + xchgBxBxLen) % 2 ^ 64 }

/-- Semantics of `lea (%rip), r` (source: `llvm_asm!` in `read_rip`,
`src/instructions/mod.rs` lines 59-68): RIP-relative addressing uses
the address of the next instruction, so the register receives the
instruction pointer advanced past the `lea` itself. -/
def execReadRip (s : MachineState) : Nat × MachineState :=
  let r := (s.rip + leaRipLen) % 2 ^ 64
  (r, { s with rip := r })

/-- Semantics of `wrfsbase r64` (source: `llvm_asm!` in `wrfsbase`,
`src/instructions/mod.rs` lines 80-94): raises `#UD` when
`CR4.FSGSBASE` is clear, otherwise writes the FS base. -/
def execWrfsbase (val : Nat) (s : MachineState) : Except Fault MachineState :=
  if s.cr4_fsgsbase then
    .ok { s with fsbase := val % 2 ^ 64, rip := (s.rip + fsgsbaseLen) % 2 ^ 64 }
  else
    .error .invalidOpcode

/-- Semantics of `rdfsbase r64` (source: `llvm_asm!` in `rdfsbase`,
`src/instructions/mod.rs` lines 102-118): raises `#UD` when
`CR4.FSGSBASE` is clear, otherwise reads the FS base. -/
def execRdfsbase (s : MachineState) : Except Fault (Nat × MachineState) :=
  if s.cr4_fsgsbase then
    .ok (s.fsbase, { s with rip := (s.rip + fsgsbaseLen) % 2 ^ 64 })
  else
    .error .invalidOpcode

/-- Semantics of `wrgsbase r64` (source: `llvm_asm!` in `wrgsbase`,
`src/instructions/mod.rs` lines 129-143). -/
def execWrgsbase (val : Nat) (s : MachineState) : Except Fault MachineState :=
  if s.cr4_fsgsbase then
    .ok { s with gsbase := val % 2 ^ 64, rip := (s.rip + fsgsbaseLen) % 2 ^ 64 }
  else
    .error .invalidOpcode

/-- Semantics of `rdgsbase r64` (source: `llvm_asm!` in `rdgsbase`,
`src/instructions/mod.rs` lines 151-167). -/
def execRdgsbase (s : MachineState) : Except Fault (Nat × MachineState) :=
  if s.cr4_fsgsbase then
    .ok (s.gsbase, { s with rip := (s.rip + fsgsbaseLen) % 2 ^ 64 })
  else
    .error .invalidOpcode

/-- Modelled from the spec: `crate::asm::x86_64_asm_hlt` is a
separately compiled routine, not under `src/`; per the spec a stub is
"a small, separately compiled routine whose entire body is the target
instruction", here `hlt`. -/
def x86_64_asm_hlt (s : MachineState) : MachineState :=
  execHlt s

/-- Modelled from the spec: `crate::asm::x86_64_asm_nop` is a stub
routine, not under `src/`, whose entire body is `nop`. -/
def x86_64_asm_nop (s : MachineState) : MachineState :=
  execNop s

/-- Modelled from the spec: `crate::asm::x86_64_asm_wrfsbase` is a
stub routine, not under `src/`, whose entire body is `wrfsbase`. -/
def x86_64_asm_wrfsbase (val : Nat) (s : MachineState) : Except Fault MachineState :=
  execWrfsbase val s

/-- Modelled from the spec: `crate::asm::x86_64_asm_rdfsbase` is a
stub routine, not under `src/`, whose entire body is `rdfsbase`. -/
def x86_64_asm_rdfsbase (s : MachineState) : Except Fault (Nat × MachineState) :=
  execRdfsbase s

/-- Modelled from the spec: `crate::asm::x86_64_asm_wrgsbase` is a
stub routine, not under `src/`, whose entire body is `wrgsbase`. -/
def x86_64_asm_wrgsbase (val : Nat) (s : MachineState) : Except Fault MachineState :=
  execWrgsbase val s

/-- Modelled from the spec: `crate::asm::x86_64_asm_rdgsbase` is a
stub routine, not under `src/`, whose entire body is `rdgsbase`. -/
def x86_64_asm_rdgsbase (s : MachineState) : Except Fault (Nat × MachineState) :=
  execRdgsbase s

/-- The compile-time backend choice: `cfg(feature = "inline_asm")`
selects inline emission, its negation selects the stub-call backend. -/
inductive Backend where
  | inlineAsm
  | stub
  deriving Repr, DecidableEq

/-- `pub fn hlt()` (`src/instructions/mod.rs` lines 13-24): under
`inline_asm` it emits `hlt` inline, otherwise it calls
`crate::asm::x86_64_asm_hlt`. -/
def hlt (b : Backend) (s : MachineState) : MachineState :=
  match b with
  | .inlineAsm => execHlt s
  | .stub => x86_64_asm_hlt s

/-- `pub fn nop()` (`src/instructions/mod.rs` lines 32-43): under
`inline_asm` it emits `nop` inline, otherwise it calls
`crate::asm::x86_64_asm_nop`. -/
def nop (b : Backend) (s : MachineState) : MachineState :=
  match b with
  | .inlineAsm => execNop s
  | .stub => x86_64_asm_nop s

/-- `pub fn bochs_breakpoint()` (`src/instructions/mod.rs` lines
47-53): gated by `cfg(feature = "inline_asm")`, so it exists only
under the inline backend and always emits `xchgw %bx, %bx` inline. -/
def bochs_breakpoint (s : MachineState) : MachineState :=
  execXchgBxBx s

/-- `pub fn read_rip()` (`src/instructions/mod.rs` lines 57-68): gated
by `cfg(feature = "inline_asm")`, so it exists only under the inline
backend; it emits `lea (%rip), $0` and returns the register. -/
def read_rip (s : MachineState) : Nat × MachineState :=
  execReadRip s

/-- `pub unsafe fn wrfsbase(val: u64)` (`src/instructions/mod.rs`
lines 80-94): the inner function emits `wrfsbase $0` inline under
`inline_asm` and calls `crate::asm::x86_64_asm_wrfsbase` otherwise. -/
def wrfsbase (b : Backend) (val : Nat) (s : MachineState) : Except Fault MachineState :=
  match b with
  | .inlineAsm => execWrfsbase val s
  | .stub => x86_64_asm_wrfsbase val s

/-- `pub unsafe fn rdfsbase()` (`src/instructions/mod.rs` lines
102-118): the inner function emits `rdfsbase $0` inline under
`inline_asm` and calls `crate::asm::x86_64_asm_rdfsbase` otherwise. -/
def rdfsbase (b : Backend) (s : MachineState) : Except Fault (Nat × MachineState) :=
  match b with
  | .inlineAsm => execRdfsbase s
  | .stub => x86_64_asm_rdfsbase s

/-- `pub unsafe fn wrgsbase(val: u64)` (`src/instructions/mod.rs`
lines 129-143). -/
def wrgsbase (b : Backend) (val : Nat) (s : MachineState) : Except Fault MachineState :=
  match b with
  | .inlineAsm => execWrgsbase val s
  | .stub => x86_64_asm_wrgsbase val s

/-- `pub unsafe fn rdgsbase()` (`src/instructions/mod.rs` lines
151-167). -/
def rdgsbase (b : Backend) (s : MachineState) : Except Fault (Nat × MachineState) :=
  match b with
  | .inlineAsm => execRdgsbase s
  | .stub => x86_64_asm_rdgsbase s

/-- The public operations of `src/instructions/mod.rs`. -/
inductive Op where
  | hlt
  | nop
  | bochs_breakpoint
  | read_rip
  | wrfsbase
  | rdfsbase
  | wrgsbase
  | rdgsbase
  deriving Repr, DecidableEq

/-- Which public functions exist under which backend, read off the
`cfg` attributes of `src/instructions/mod.rs`: `bochs_breakpoint`
(line 47) and `read_rip` (line 57) carry
`#[cfg(feature = "inline_asm")]` on the function itself, the rest
exist under both configurations. -/
def available (op : Op) (b : Backend) : Bool :=
  match op with
  | .bochs_breakpoint => b == .inlineAsm
  | .read_rip => b == .inlineAsm
  | _ => true

/-- One uniform view of every operation: input is a 64-bit word
(ignored by the zero-input operations), output is the machine state
paired with the optional 64-bit result, and the error channel carries
only hardware faults. -/
def run (b : Backend) (op : Op) (arg : Nat) (s : MachineState) :
    Except Fault (MachineState × Option Nat) :=
  match op with
  | .hlt => .ok (hlt b s, none)
  | .nop => .ok (nop b s, none)
  | .bochs_breakpoint => .ok (bochs_breakpoint s, none)
  | .read_rip => .ok ((read_rip s).2, some (read_rip s).1)
  | .wrfsbase => (wrfsbase b arg s).map (fun s1 => (s1, none))
  | .rdfsbase => (rdfsbase b s).map (fun p => (p.2, some p.1))
  | .wrgsbase => (wrgsbase b arg s).map (fun s1 => (s1, none))
  | .rdgsbase => (rdgsbase b s).map (fun p => (p.2, some p.1))

/-- Executing `k` bytes of straight-line, branch-free code that does
not touch the state observed by this core: the instruction pointer
advances by `k`. -/
def advance (k : Nat) (s : MachineState) : MachineState :=
  { s with rip := (s.rip + k) % 2 ^ 64 }

/-- A concrete state used as a test fixture: `CR4.FSGSBASE` enabled,
no interrupt pending. -/
def testState : MachineState :=
  { rip := 0x1000, bx := 0x42, fsbase := 0, gsbase := 0,
    cr4_fsgsbase := true, interruptPending := false, halted := false }

/-- A test fixture with `CR4.FSGSBASE` disabled. -/
def noCr4State : MachineState :=
  { testState with cr4_fsgsbase := false }

/-- A test fixture with an interrupt already pending. -/
def pendingState : MachineState :=
  { testState with interruptPending := true }

/-- A test fixture whose instruction pointer sits 14 bytes below the
64-bit wraparound point. -/
def wrapState : MachineState :=
  { rip := 2 ^ 64 - 14, bx := 0, fsbase := 0, gsbase := 0,
    cr4_fsgsbase := true, interruptPending := false, halted := false }

/-- C1: for every operation provided under both backend selections
(`hlt`, `nop`, `wrfsbase`, `rdfsbase`, `wrgsbase`, `rdgsbase`), the
inline-emission implementation and the stub-call implementation are
behaviorally identical: on every input and state the two backends
produce the same result, so the per-operation embeddings agree. -/
theorem both_backends_behaviorally_identical :
    (∀ b1 b2 s, hlt b1 s = hlt b2 s) ∧
    (∀ b1 b2 s, nop b1 s = nop b2 s) ∧
    (∀ b1 b2 v s, wrfsbase b1 v s = wrfsbase b2 v s) ∧
    (∀ b1 b2 s, rdfsbase b1 s = rdfsbase b2 s) ∧
    (∀ b1 b2 v s, wrgsbase b1 v s = wrgsbase b2 v s) ∧
    (∀ b1 b2 s, rdgsbase b1 s = rdgsbase b2 s) := by
  refine ⟨?_, ?_, ?_, ?_, ?_, ?_⟩ <;>
    intro b1 b2 <;> cases b1 <;> cases b2 <;> intros <;> rfl

/-- C2 counterexample: the claim says every public operation except
`bochs_breakpoint` — in particular `read_rip` — is available under
both backends, but `read_rip` carries
`#[cfg(feature = "inline_asm")]` (`src/instructions/mod.rs` line 57)
and is absent under the stub-call backend. -/
theorem read_rip_unavailable_under_stub :
    available Op.read_rip Backend.stub = false := by decide

/-- C2 (amended): every public operation except `bochs_breakpoint` and
`read_rip` is available under both backends; both `bochs_breakpoint`
and `read_rip` are restricted to the inline-emission backend. -/
theorem ops_available_under_both_backends :
    (∀ op b, op ≠ Op.bochs_breakpoint → op ≠ Op.read_rip → available op b = true) ∧
    available Op.bochs_breakpoint Backend.inlineAsm = true ∧
    available Op.bochs_breakpoint Backend.stub = false ∧
    available Op.read_rip Backend.inlineAsm = true ∧
    available Op.read_rip Backend.stub = false := by
  refine ⟨?_, rfl, rfl, rfl, rfl⟩
  intro op b h1 h2
  cases op <;> cases b <;>
    first
      | rfl
      | exact absurd rfl h1
      | exact absurd rfl h2

/-- Witness for C2 (amended) at `Op.hlt`, `Backend.stub`. -/
theorem ops_available_under_both_backends_witness :
    available Op.hlt Backend.stub = true :=
  ops_available_under_both_backends.1 Op.hlt Backend.stub
    (by decide) (by decide)

/-- C3: under the `CR4.FSGSBASE` precondition, writing a 64-bit value
to the FS base and immediately reading it back returns exactly that
value, and likewise for GS — under either backend. -/
theorem write_then_read_segment_base (b : Backend) (v : Nat) (s : MachineState)
    (hv : v < 2 ^ 64) (hcr4 : s.cr4_fsgsbase = true) :
    ((wrfsbase b v s).bind fun s1 => (rdfsbase b s1).map Prod.fst) = .ok v ∧
    ((wrgsbase b v s).bind fun s1 => (rdgsbase b s1).map Prod.fst) = .ok v := by
  cases b <;>
    simp [wrfsbase, rdfsbase, wrgsbase, rdgsbase, x86_64_asm_wrfsbase,
      x86_64_asm_rdfsbase, x86_64_asm_wrgsbase, x86_64_asm_rdgsbase,
      execWrfsbase, execRdfsbase, execWrgsbase, execRdgsbase, hcr4,
      Nat.mod_eq_of_lt, Except.bind, Except.map] <;>
    omega

/-- Witness for C3 at the representative non-zero value `0xdeadbeef`. -/
theorem write_then_read_segment_base_witness :
    (0xdeadbeef < 2 ^ 64 ∧ testState.cr4_fsgsbase = true) ∧
    ((wrfsbase Backend.inlineAsm 0xdeadbeef testState).bind fun s1 =>
      (rdfsbase Backend.inlineAsm s1).map Prod.fst) = .ok 0xdeadbeef :=
  ⟨⟨by decide, rfl⟩,
    (write_then_read_segment_base Backend.inlineAsm 0xdeadbeef testState
      (by decide) rfl).1⟩

/-- C4: no operation has a recoverable-error result — every execution
either completes (`.ok`) or raises a hardware fault, the only fault
these operations raise is invalid-opcode, and the four segment-base
operations fault exactly when `CR4.FSGSBASE` is clear (the core itself
performs no check that turns the violation into a signaled value). -/
theorem no_recoverable_error_channel :
    (∀ b op arg s, (∃ r, run b op arg s = .ok r) ∨
      run b op arg s = .error Fault.invalidOpcode) ∧
    (∀ b op arg s, run b op arg s ≠ .error Fault.generalProtection) ∧
    (∀ b arg s, s.cr4_fsgsbase = false →
      run b Op.wrfsbase arg s = .error Fault.invalidOpcode ∧
      run b Op.rdfsbase arg s = .error Fault.invalidOpcode ∧
      run b Op.wrgsbase arg s = .error Fault.invalidOpcode ∧
      run b Op.rdgsbase arg s = .error Fault.invalidOpcode) := by
  refine ⟨?_, ?_, ?_⟩
  · intro b op arg s
    cases op <;> cases b <;> by_cases h : s.cr4_fsgsbase <;>
      simp [run, wrfsbase, rdfsbase, wrgsbase, rdgsbase, x86_64_asm_wrfsbase,
        x86_64_asm_rdfsbase, x86_64_asm_wrgsbase, x86_64_asm_rdgsbase,
        execWrfsbase, execRdfsbase, execWrgsbase, execRdgsbase, Except.map, h]
  · intro b op arg s
    cases op <;> cases b <;> by_cases h : s.cr4_fsgsbase <;>
      simp [run, wrfsbase, rdfsbase, wrgsbase, rdgsbase, x86_64_asm_wrfsbase,
        x86_64_asm_rdfsbase, x86_64_asm_wrgsbase, x86_64_asm_rdgsbase,
        execWrfsbase, execRdfsbase, execWrgsbase, execRdgsbase, Except.map, h]
  · intro b arg s h
    cases b <;>
      simp [run, wrfsbase, rdfsbase, wrgsbase, rdgsbase, x86_64_asm_wrfsbase,
        x86_64_asm_rdfsbase, x86_64_asm_wrgsbase, x86_64_asm_rdgsbase,
        execWrfsbase, execRdfsbase, execWrgsbase, execRdgsbase, Except.map, h]

/-- Witness for C4: with `CR4.FSGSBASE` clear, `wrfsbase` faults with
invalid-opcode. -/
theorem no_recoverable_error_channel_witness :
    noCr4State.cr4_fsgsbase = false ∧
    run Backend.stub Op.wrfsbase 5 noCr4State = .error Fault.invalidOpcode :=
  ⟨rfl, (no_recoverable_error_channel.2.2 Backend.stub 5 noCr4State rfl).1⟩

/-- C5: a call to `hlt` made while an interrupt is already pending
returns control to the caller — the resulting state is not halted (and
the pending interrupt has been consumed) — under either backend. -/
theorem hlt_with_pending_interrupt_returns (b : Backend) (s : MachineState)
    (h : s.interruptPending = true) :
    (hlt b s).halted = false ∧ (hlt b s).interruptPending = false := by
  cases b <;> simp [hlt, x86_64_asm_hlt, execHlt, h]

/-- Witness for C5 at a state with a pending interrupt. -/
theorem hlt_with_pending_interrupt_returns_witness :
    pendingState.interruptPending = true ∧
    (hlt Backend.inlineAsm pendingState).halted = false :=
  ⟨rfl, (hlt_with_pending_interrupt_returns Backend.inlineAsm pendingState rfl).1⟩

/-- C6: `nop` has no architectural effect — under either backend the
resulting state is the input state with only the instruction pointer
advanced past the one-byte instruction; every other component (BX,
FS/GS bases, CR4 bit, interrupt and halt flags) is unchanged. -/
theorem nop_only_advances_rip (b : Backend) (s : MachineState) :
    nop b s = { s with rip := (s.rip + nopLen) % 2 ^ 64 } := by
  cases b <;> rfl

/-- C7: `bochs_breakpoint` is available only under the inline-emission
backend, and on real hardware its instruction (`xchgw %bx, %bx`) has
no architectural effect beyond advancing the instruction pointer: the
exchange of BX with itself leaves BX unchanged. -/
theorem bochs_breakpoint_inline_only_and_harmless :
    available Op.bochs_breakpoint Backend.inlineAsm = true ∧
    available Op.bochs_breakpoint Backend.stub = false ∧
    ∀ s, bochs_breakpoint s = { s with rip := (s.rip + xchgBxBxLen) % 2 ^ 64 } :=
  ⟨rfl, rfl, fun _ => rfl⟩

/-- C8 counterexample: two sequential `read_rip` calls in straight-line
code do not always return strictly increasing values — when the 64-bit
instruction pointer wraps between the two reads (here it starts 14
bytes below `2 ^ 64`), the second value is smaller. -/
theorem read_rip_not_monotonic_at_wraparound :
    ¬ (read_rip (advance 0 (read_rip wrapState).2)).1 > (read_rip wrapState).1 := by
  decide

/-- C8 (amended): across two sequential `read_rip` calls separated by
`k` bytes of straight-line code, the second value is strictly greater
than the first, provided the 64-bit instruction pointer does not wrap
around between the reads. -/
theorem read_rip_monotonic_without_wraparound (s : MachineState) (k : Nat)
    (h : s.rip + leaRipLen + k + leaRipLen < 2 ^ 64) :
    (read_rip (advance k (read_rip s).2)).1 > (read_rip s).1 := by
  simp only [read_rip, execReadRip, advance, leaRipLen] at *
  rw [Nat.mod_eq_of_lt (by omega), Nat.mod_eq_of_lt (by omega),
    Nat.mod_eq_of_lt (by omega)]
  omega

/-- Witness for C8 (amended) at the test fixture with `k = 0`. -/
theorem read_rip_monotonic_without_wraparound_witness :
    testState.rip + leaRipLen + 0 + leaRipLen < 2 ^ 64 ∧
    (read_rip (advance 0 (read_rip testState).2)).1 > (read_rip testState).1 :=
  ⟨by decide, read_rip_monotonic_without_wraparound testState 0 (by decide)⟩

/-- C9: the FS and GS bases are independent — under the `CR4.FSGSBASE`
precondition, writing the FS base leaves the GS base unchanged and
writing the GS base leaves the FS base unchanged, under either
backend. -/
theorem segment_base_writes_independent (b : Backend) (v : Nat) (s : MachineState)
    (h : s.cr4_fsgsbase = true) :
    (wrfsbase b v s).map MachineState.gsbase = .ok s.gsbase ∧
    (wrgsbase b v s).map MachineState.fsbase = .ok s.fsbase := by
  cases b <;>
    simp [wrfsbase, wrgsbase, x86_64_asm_wrfsbase, x86_64_asm_wrgsbase,
      execWrfsbase, execWrgsbase, Except.map, h]

/-- Witness for C9 at the test fixture. -/
theorem segment_base_writes_independent_witness :
    testState.cr4_fsgsbase = true ∧
    (wrfsbase Backend.stub 3 testState).map MachineState.gsbase = .ok testState.gsbase :=
  ⟨rfl, (segment_base_writes_independent Backend.stub 3 testState rfl).1⟩

/-- C10: `rdfsbase` and `rdgsbase` are deterministic, effect-free
reads — under the `CR4.FSGSBASE` precondition each returns exactly the
current base (a function of the register state alone), leaves both
segment bases unchanged, and an immediately repeated read returns the
same value. -/
theorem read_segment_base_pure (b : Backend) (s : MachineState)
    (h : s.cr4_fsgsbase = true) :
    (∃ s1, rdfsbase b s = .ok (s.fsbase, s1) ∧
      s1.fsbase = s.fsbase ∧ s1.gsbase = s.gsbase ∧
      (rdfsbase b s1).map Prod.fst = .ok s.fsbase) ∧
    (∃ s1, rdgsbase b s = .ok (s.gsbase, s1) ∧
      s1.fsbase = s.fsbase ∧ s1.gsbase = s.gsbase ∧
      (rdgsbase b s1).map Prod.fst = .ok s.gsbase) := by
  refine ⟨⟨{ s with rip := (s.rip + fsgsbaseLen) % 2 ^ 64 }, ?_, rfl, rfl, ?_⟩,
          ⟨{ s with rip := (s.rip + fsgsbaseLen) % 2 ^ 64 }, ?_, rfl, rfl, ?_⟩⟩ <;>
    cases b <;>
    simp [rdfsbase, rdgsbase, x86_64_asm_rdfsbase, x86_64_asm_rdgsbase,
      execRdfsbase, execRdgsbase, Except.map, h]

/-- Witness for C10 at the test fixture. -/
theorem read_segment_base_pure_witness :
    testState.cr4_fsgsbase = true ∧
    ∃ s1, rdfsbase Backend.inlineAsm testState = .ok (testState.fsbase, s1) ∧
      s1.fsbase = testState.fsbase ∧ s1.gsbase = testState.gsbase ∧
      (rdfsbase Backend.inlineAsm s1).map Prod.fst = .ok testState.fsbase :=
  ⟨rfl, (read_segment_base_pure Backend.inlineAsm testState rfl).1⟩
